import Mathlib

/-!
Verification model of `cliconfig.py`, an interactive CLI session driver
for EndaceProbe appliances.  The Python source is shallowly embedded:
strings are Lean strings manipulated through their character lists,
bytes are `List Nat`, the SSH channel is a list of incoming byte chunks,
logging is an explicit event list, and `exit()` / uncaught exceptions are
explicit result variants.  Fixed regular expressions appearing in the
source are translated to concrete character-list functions; the dynamic
prompt-pattern list (extended at run time by the prompt macro) keeps its
patterns as strings and is matched through an abstract search oracle
carried in the session state.  Debug-level log calls are omitted from
the model; info- and error-level calls are kept.
-/

/-- Python whitespace class for the regex token matching a blank character. -/
def isPyWs (c : Char) : Bool :=
  c = ' ' || c = '\t' || c = '\n' || c = '\r' || c = '\x0b' || c = '\x0c'

/-- Python word-character class (ASCII) used by the macro-name group. -/
def isWordChar (c : Char) : Bool :=
  c.isAlphanum || c = '_'

/-- Does the first list occur as a leading segment of the second list? -/
def listIsPre : List Char → List Char → Bool
  | [], _ => true
  | _ :: _, [] => false
  | p :: ps, c :: cs => p = c && listIsPre ps cs

/-- Does `pat` occur anywhere inside `l`?  Models an unanchored literal
search of `pat` inside the text `l`. -/
def listHasSub (pat : List Char) : List Char → Bool
  | [] => listIsPre pat []
  | l@(_ :: t) => listIsPre pat l || listHasSub pat t

/-- Literal substring test on strings, modelling an `re.search` whose
pattern has no metacharacters. -/
def containsStr (s pat : String) : Bool :=
  listHasSub pat.data s.data

/-- One replacement pass with explicit fuel; the fuel is always the length
of the scanned list, which bounds the number of scanning steps since every
step consumes at least one character (the pattern is nonempty in all uses,
mirroring the placeholder patterns of the source). -/
def replFuel (pat rep : List Char) : Nat → List Char → List Char
  | _, [] => []
  | 0, l => l
  | fuel + 1, c :: rest =>
    if listIsPre pat (c :: rest) then
      if pat.isEmpty then c :: rest
      else rep ++ replFuel pat rep fuel ((c :: rest).drop pat.length)
    else
      c :: replFuel pat rep fuel rest

/-- All-occurrence replacement of a literal pattern, modelling `re.sub`
with a metacharacter-free pattern and a plain replacement string. -/
def replaceAllStr (s pat rep : String) : String :=
  String.mk (replFuel pat.data rep.data s.data.length s.data)

/-- Python `str.rstrip()`: drop trailing whitespace. -/
def pyRstrip (s : String) : String :=
  String.mk (s.data.reverse.dropWhile isPyWs).reverse

/-- Digit-run evaluation for `pyInt`. -/
def digitsVal : List Char → Nat → Option Nat
  | [], acc => some acc
  | c :: rest, acc =>
    if c.isDigit then digitsVal rest (acc * 10 + (c.toNat - 48)) else none

/-- Value of a nonempty all-digit character run. -/
def digitsToNat : List Char → Option Nat
  | [] => none
  | l => digitsVal l 0

/-- Python `int(...)` on a string: surrounding whitespace is ignored, an
optional sign precedes a nonempty digit run; anything else raises
(`none` here). -/
def pyInt (s : String) : Option Int :=
  match (s.data.dropWhile isPyWs).reverse.dropWhile isPyWs |>.reverse with
  | '-' :: ds => (digitsToNat ds).map (fun n => -(n : Int))
  | '+' :: ds => (digitsToNat ds).map (fun n => (n : Int))
  | ds => (digitsToNat ds).map (fun n => (n : Int))

/-- Strip a literal prefix, returning the remainder when it is present. -/
def dropLit : List Char → List Char → Option (List Char)
  | [], l => some l
  | _ :: _, [] => none
  | p :: ps, c :: cs => if c = p then dropLit ps cs else none

/-- Strip exactly one whitespace character. -/
def dropWs1 : List Char → Option (List Char)
  | [] => none
  | c :: cs => if isPyWs c then some cs else none

/-- Does the confirmation pattern of the source, the regex
`.*configuration\smode\sanyway:\s`, match starting at this position? -/
def cmcAt (l : List Char) : Bool :=
  ((((((some l).bind (dropLit "configuration".data)).bind dropWs1).bind
      (dropLit "mode".data)).bind dropWs1).bind
      (dropLit "anyway:".data)).bind dropWs1 |>.isSome

/-- Search every position for the confirmation pattern. -/
def cmcScan : List Char → Bool
  | [] => false
  | l@(_ :: t) => cmcAt l || cmcScan t

/-- `re.search(self.cmc_prompt, text)`: the fixed confirmation-prompt
pattern of `__init__`, searched anywhere in the decoded text. -/
def matchesCmcPrompt (s : String) : Bool :=
  cmcScan s.data

/-- Does the second alternative of the login regex, `co\st`, match starting
at this position? -/
def coWsTAt : List Char → Bool
  | 'c' :: 'o' :: w :: 't' :: _ => isPyWs w
  | _ => false

/-- Search every position for the `co\st` alternative. -/
def hasCoWsT : List Char → Bool
  | [] => false
  | l@(_ :: t) => coWsTAt l || hasCoWsT t

/-- `re.search('^en|co\st', line)` from `send_command`: the alternation
binds tighter than the anchor, so the line matches when it starts with
`en`, or when `co` followed by one whitespace and `t` occurs anywhere. -/
def isLoginCmd (line : String) : Bool :=
  listIsPre "en".data line.data || hasCoWsT line.data

/-- Reading of the specification wording for the login allow list: the
line must BEGIN with one of the allow-listed prefixes (`en`, or `co`
followed by a whitespace and `t`).  Used to state claim C4 as written;
compare with `isLoginCmd`, the translation of the source regex. -/
def beginsAllowListed (line : String) : Bool :=
  listIsPre "en".data line.data || coWsTAt line.data

/-- Does the device-error pattern `(?P<error>\n%\s.*)\n` match starting at
this position?  On success returns the captured group. -/
def errAt : List Char → Option String
  | '\n' :: '%' :: w :: rest =>
    if isPyWs w then
      match rest.dropWhile (fun c => c != '\n') with
      | '\n' :: _ =>
        some (String.mk ('\n' :: '%' :: w :: rest.takeWhile (fun c => c != '\n')))
      | _ => none
    else none
  | _ => none

/-- Leftmost search for the device-error pattern. -/
def errScan : List Char → Option String
  | [] => none
  | l@(_ :: t) =>
    match errAt l with
    | some e => some e
    | none => errScan t

/-- `self.cli_error_re.search(stdout)`, returning the `error` group. -/
def extractError (s : String) : Option String :=
  errScan s.data

/-- Running state of the strict UTF-8 decoder: characters decoded so far
(reversed), the partial code point, continuation bytes still needed, and
the total length of the current multi-byte sequence. -/
structure Utf8St where
  acc : List Char
  cp : Nat
  need : Nat
  len : Nat

/-- One byte of strict UTF-8 decoding, as performed by
`bytes.decode('utf-8')`: invalid lead bytes, bad continuations, overlong
forms, surrogates and out-of-range code points all fail. -/
def utf8Step (st : Utf8St) (b : Nat) : Option Utf8St :=
  if st.need = 0 then
    if b < 0x80 then some ⟨Char.ofNat b :: st.acc, 0, 0, 0⟩
    else if 0xC2 ≤ b && b ≤ 0xDF then some ⟨st.acc, b - 0xC0, 1, 2⟩
    else if 0xE0 ≤ b && b ≤ 0xEF then some ⟨st.acc, b - 0xE0, 2, 3⟩
    else if 0xF0 ≤ b && b ≤ 0xF4 then some ⟨st.acc, b - 0xF0, 3, 4⟩
    else none
  else
    if 0x80 ≤ b && b ≤ 0xBF then
      let cp := st.cp * 64 + (b - 0x80)
      if st.need = 1 then
        if (st.len = 2 && 0x80 ≤ cp)
            || (st.len = 3 && 0x800 ≤ cp && !(0xD800 ≤ cp && cp ≤ 0xDFFF))
            || (st.len = 4 && 0x10000 ≤ cp && cp ≤ 0x10FFFF) then
          some ⟨Char.ofNat cp :: st.acc, 0, 0, 0⟩
        else none
      else some ⟨st.acc, cp, st.need - 1, st.len⟩
    else none

/-- `bytes.decode('utf-8')` in strict mode: `none` models the raised
`UnicodeDecodeError`, including the case of a truncated trailing
sequence. -/
def utf8Decode (bs : List Nat) : Option String :=
  match bs.foldlM utf8Step ⟨[], 0, 0, 0⟩ with
  | some st => if st.need = 0 then some (String.mk st.acc.reverse) else none
  | none => none

/-- UTF-8 bytes of an ASCII string, for building concrete channel chunks. -/
def strBytes (s : String) : List Nat :=
  s.data.map Char.toNat

/-- A log record at the level the source emits it (debug calls omitted). -/
inductive LogEvent where
  | info (msg : String)
  | error (msg : String)
deriving DecidableEq

/-- The mutable state of an `EndaceProbeCLISession` object that the core
logic reads and writes: replacement variables, the prompt-pattern list,
the CMS profile argument and the profile-command counter.  `research`
abstracts Python `re.search(pattern, text)` for the dynamic prompt
patterns, whose regex text is only known at run time. -/
structure Session where
  research : String → String → Bool
  vars : List (String × Option String)
  prompt : List String
  cmsProfile : Option String
  cmsCmdCount : Nat

/-- The replacement-variable table of `__init__`; the dictionary is kept
as an association list in insertion order. -/
def initVars : List (String × Option String) :=
  [("URL", none), ("VMNAME", some "default-vm"), ("IMAGE", none)]

/-- The default prompt patterns derived from the target hostname in
`getargs`, kept as regex source strings. -/
def init_prompt_list (hostname : String) : List String :=
  [".*" ++ hostname ++ "\\s[#>]\\s",
   ".*" ++ hostname ++ "\\s\\(config\\)",
   "Escape\\scharacter\\sis:\\s'Ctrl\\s\\^'"]

/-- The info message logged when a placeholder has no defined value. -/
def missingVarMsg (x : String) : String :=
  "Found line with variable " ++ x ++ " but no replacement value defined"

/-- The variable-substitution loop of `parse_file`: each variable of the
table is tried in order; when its placeholder occurs and a value is
defined, every occurrence is replaced; when its placeholder occurs with
no defined value, the event is logged at info level and the loop stops
(`break`), leaving the line as accumulated so far. -/
def substituteVars : List (String × Option String) → String → String × List LogEvent
  | [], line => (line, [])
  | (x, v) :: rest, line =>
    if containsStr line ("<" ++ x ++ ">") then
      match v with
      | some rep => substituteVars rest (replaceAllStr line ("<" ++ x ++ ">") rep)
      | none => (line, [LogEvent.info (missingVarMsg x)])
    else substituteVars rest line

/-- Result of one receive cycle of `parse_command_response`: the returned
triple when a prompt matched (`none` models the implicit `return None` on
timeout and on the confirmation break), the session after the cycle, the
channel chunks not yet consumed, the lines written to the channel during
the cycle, and the log events emitted. -/
structure PCRRes where
  result : Option (String × Option String × List Nat)
  sess : Session
  rest : List (List Nat)
  sent : List String
  log : List LogEvent

/-- The profile-command directive built in `send_command`:
`'cmc profile %s command %d "%s"\n' % (profile, count, line.rstrip())`. -/
def cmcWrapStr (prof : String) (n : Nat) (line : String) : String :=
  "cmc profile " ++ prof ++ " command " ++ toString n ++ " \"" ++ pyRstrip line ++ "\"\n"

/-- The CMS-profile rewrite at the top of `send_command`: when a profile
name is set and the line does not match the login regex, the line is
wrapped as a profile-command directive and the command counter advances
by 10; otherwise the line and the session pass through unchanged. -/
def sendWrap (sess : Session) (line : String) : String × Session :=
  match sess.cmsProfile with
  | some prof =>
    if isLoginCmd line then (line, sess)
    else (cmcWrapStr prof sess.cmsCmdCount line,
          { sess with cmsCmdCount := sess.cmsCmdCount + 10 })
  | none => (line, sess)

/-- The receive loop of `parse_command_response` over the remaining
channel chunks, carrying the response buffer accumulated so far.  The
channel of an interactive shell never reports an exit status before the
session closes, so the loop is left only by a prompt match, by the
confirmation break, or by the read timing out when no data remains
(the caught `socket.timeout`, yielding the implicit `return None`).
A decode failure of the accumulated buffer is the uncaught
`UnicodeDecodeError` and aborts the whole computation (`Except.error`).
The confirmation branch replays `self.send_command('YES\n')`: the reply
goes through the CMS rewrite, is written to the channel, and a nested
receive cycle runs on the remaining chunks before the outer loop breaks
and returns `None`. -/
def parse_command_response_aux : Session → List (List Nat) → List Nat → Except Unit PCRRes
  | sess, [], _ => .ok ⟨none, sess, [], [], []⟩
  | sess, c :: rest, resp =>
    match utf8Decode (resp ++ c) with
    | none => .error ()
    | some text =>
      if matchesCmcPrompt text then
        match parse_command_response_aux (sendWrap sess "YES\n").2 rest [] with
        | .error e => .error e
        | .ok r =>
          .ok ⟨none, r.sess, r.rest,
               (sendWrap sess "YES\n").1 :: r.sent,
               LogEvent.info ("Sent command: " ++ pyRstrip (sendWrap sess "YES\n").1) :: r.log⟩
      else if sess.prompt.any (fun p => sess.research p text) then
        .ok ⟨some (text, extractError text, resp ++ c), sess, rest, [],
             match extractError text with
             | some e => [LogEvent.error ("Command returned error: " ++ e)]
             | none => []⟩
      else
        parse_command_response_aux sess rest (resp ++ c)

/-- One command cycle starting from an empty response buffer. -/
def parse_command_response (sess : Session) (chunks : List (List Nat)) : Except Unit PCRRes :=
  parse_command_response_aux sess chunks []

/-- `send_command`: rewrite the line for CMS-profile mode if needed, log
it, write it to the channel, then run a receive cycle. -/
def send_command (sess : Session) (line : String) (chunks : List (List Nat)) : Except Unit PCRRes :=
  match parse_command_response_aux (sendWrap sess line).2 chunks [] with
  | .error e => .error e
  | .ok r =>
    .ok { r with sent := (sendWrap sess line).1 :: r.sent,
                 log := LogEvent.info ("Sent command: " ++ pyRstrip (sendWrap sess line).1) :: r.log }

/-- Splitting of a line by the macro regex `^@(?P<macro>\w+)\s(?P<action>.*)$`
(`re.search` without MULTILINE, so the caret anchors at the string start
and the dollar accepts the end of the string or a position just before a
final newline).  `none` models a failed search, after which the source
dereferences the match object and raises `AttributeError`. -/
def atLineParts (line : String) : Option (String × String) :=
  match line.data with
  | '@' :: rest =>
    match rest.takeWhile isWordChar, rest.dropWhile isWordChar with
    | [], _ => none
    | _ :: _, [] => none
    | nm, w :: rest2 =>
      if isPyWs w then
        match rest2.dropWhile (fun c => c != '\n') with
        | [] => some (String.mk nm, String.mk (rest2.takeWhile (fun c => c != '\n')))
        | ['\n'] => some (String.mk nm, String.mk (rest2.takeWhile (fun c => c != '\n')))
        | _ => none
      else none
  | _ => none

/-- `re.match(name, target)` as the source calls it, with the arguments in
that reversed order: the macro name taken from the file is used as the
pattern.  A name captured by `\w+` has no regex metacharacters, so the
call succeeds exactly when the name is a leading segment of the target
word (`re.match` anchors only at the start). -/
def reMatchName (name target : String) : Bool :=
  listIsPre name.data target.data

/-- Outcome of `exec_macro` on one line: `exited` is the `exit()` call
(`SystemExit` propagates), `done` carries the log and the seconds slept,
`crashed` is an uncaught exception (failed macro regex, bad `int`,
negative sleep). -/
inductive MacroOutcome where
  | exited (log : List LogEvent)
  | done (log : List LogEvent) (delay : Int)
  | crashed (log : List LogEvent)
deriving DecidableEq

/-- The info message of the sleep macro. -/
def sleepMsg (action : String) : LogEvent :=
  LogEvent.info ("@sleep macro found in config file, sleeping for " ++ action ++ " seconds")

/-- The info message of the exit macro. -/
def exitMsg : LogEvent :=
  LogEvent.info "@exit macro found in config file, terminating."

/-- `exec_macro`: the run-time macro dispatch.  The exit check runs first
in every mode; with a CMS profile set all other run-time macros return
without effect; the sleep check then parses its argument and sleeps. -/
def exec_macro_line (cms : Option String) (line : String) : MacroOutcome :=
  match atLineParts line with
  | none => .crashed []
  | some na =>
    if reMatchName na.1 "exit" then .exited [exitMsg]
    else if cms.isSome then .done [] 0
    else if reMatchName na.1 "sleep" then
      match pyInt na.2 with
      | some n => if n < 0 then .crashed [sleepMsg na.2] else .done [sleepMsg na.2] n
      | none => .crashed [sleepMsg na.2]
    else .done [] 0

/-- `parse_macro`: the pre-run macro dispatch of the discovery pass; only
the prompt macro has an effect, appending its argument to the prompt
list.  `Except.error` is the `AttributeError` on a failed macro regex. -/
def parse_macro_line (sess : Session) (line : String) : Except Unit Session :=
  match atLineParts line with
  | none => .error ()
  | some na =>
    if reMatchName na.1 "prompt" then .ok { sess with prompt := sess.prompt ++ [na.2] }
    else .ok sess

/-- `re.search('^#', line)`: a comment line. -/
def isCommentLine (line : String) : Bool :=
  listIsPre "#".data line.data

/-- `re.search('^\r?\n$', line)`: the blank-line filter.  Without
MULTILINE the caret anchors at the start and the dollar accepts the end
of the string or a position just before a final newline, so exactly
these four strings match. -/
def isBlankLine (line : String) : Bool :=
  match line.data with
  | ['\n'] => true
  | ['\r', '\n'] => true
  | ['\n', '\n'] => true
  | ['\r', '\n', '\n'] => true
  | _ => false

/-- `re.search('^@', line)`: the execution-pass macro filter. -/
def isMacroExecLine (line : String) : Bool :=
  listIsPre "@".data line.data

/-- `re.search('^@\w+', line)`: the discovery-pass macro filter. -/
def isMacroStart (line : String) : Bool :=
  match line.data with
  | '@' :: c :: _ => isWordChar c
  | _ => false

/-- The discovery pass of `parse_file` (`macro=True`): comment and blank
lines are skipped, macro-looking lines go to `parse_macro`, every other
line is ignored; nothing is ever sent. -/
def parse_file_macros : Session → List String → Except Unit Session
  | sess, [] => .ok sess
  | sess, line :: ls =>
    if isCommentLine line then parse_file_macros sess ls
    else if isBlankLine line then parse_file_macros sess ls
    else if isMacroStart line then
      match parse_macro_line sess line with
      | .error e => .error e
      | .ok s2 => parse_file_macros s2 ls
    else parse_file_macros sess ls

/-- State threaded through the execution pass: the session object, the
channel input not yet consumed, the lines sent so far, the log, and the
total seconds slept. -/
structure RunState where
  sess : Session
  chunks : List (List Nat)
  sent : List String
  log : List LogEvent
  slept : Int

/-- Outcome of the execution pass: normal completion, termination by the
exit macro (`SystemExit` propagating out of `parse_file`), or an uncaught
exception. -/
inductive RunRes where
  | finished (st : RunState)
  | exited (st : RunState)
  | crashed (st : RunState)

/-- The execution pass of `parse_file` (`macro=False`): per line, skip
comments and blanks, dispatch macro lines to `exec_macro`, otherwise
substitute variables and send the line, continuing with the state left
by the command cycle. -/
def parse_file_exec : RunState → List String → RunRes
  | st, [] => .finished st
  | st, line :: ls =>
    if isCommentLine line then parse_file_exec st ls
    else if isBlankLine line then parse_file_exec st ls
    else if isMacroExecLine line then
      match exec_macro_line st.sess.cmsProfile line with
      | .exited lg => .exited { st with log := st.log ++ lg }
      | .crashed lg => .crashed { st with log := st.log ++ lg }
      | .done lg d => parse_file_exec { st with log := st.log ++ lg, slept := st.slept + d } ls
    else
      match send_command st.sess (substituteVars st.sess.vars line).1 st.chunks with
      | .error _ => .crashed { st with log := st.log ++ (substituteVars st.sess.vars line).2 }
      | .ok r =>
        parse_file_exec
          ⟨r.sess, r.rest, st.sent ++ r.sent,
           st.log ++ (substituteVars st.sess.vars line).2 ++ r.log, st.slept⟩ ls

/-- Observable outcome of a whole run of `main`: whether the channel was
opened, whether `close_conn` ran, the lines sent during the execution
pass, and how the run ended. -/
structure MainRes where
  opened : Bool
  closed : Bool
  sent : List String
  exitedEarly : Bool
  crashed : Bool
deriving DecidableEq

/-- The run driven by `main`: the discovery pass over the script, then
`open_conn` (which clears the login banner with a receive cycle), then
the execution pass over the same script, then `close_conn`.  `exit()` in
a macro raises `SystemExit` and an uncaught exception propagates; in
both cases `main` never reaches `close_conn`, so the channel is left
open when the process ends. -/
def main_run (sess : Session) (lines : List String) (chunks : List (List Nat)) : MainRes :=
  match parse_file_macros sess lines with
  | .error _ => ⟨false, false, [], false, true⟩
  | .ok sess1 =>
    match parse_command_response sess1 chunks with
    | .error _ => ⟨true, false, [], false, true⟩
    | .ok r0 =>
      match parse_file_exec ⟨r0.sess, r0.rest, r0.sent, r0.log, 0⟩ lines with
      | .finished st => ⟨true, true, st.sent, false, false⟩
      | .exited st => ⟨true, false, st.sent, true, false⟩
      | .crashed st => ⟨true, false, st.sent, false, true⟩

/-- Whitespace-only-line predicate in the words of the specification:
nonempty and consisting of whitespace characters only.  Used to state
claim C9; compare with `isBlankLine`, the translation of the source
filter. -/
def specWhitespaceOnly (s : String) : Bool :=
  !s.data.isEmpty && s.data.all isPyWs

/-- A macro line as the script format writes it. -/
def mkAtLine (name action : String) : String :=
  "@" ++ name ++ " " ++ action ++ "\n"

/-- Search oracle used by the concrete sessions below: each prompt
pattern of the default list matches exactly the texts containing the
literal device prompt of host `probe1`, the anchored-free core of the
default patterns. -/
def researchSub : String → String → Bool :=
  fun _ text => containsStr text "probe1 # "

/-- A session as `__init__` and `getargs` build it for host `probe1`
without a CMS profile. -/
def sessDefault : Session :=
  ⟨researchSub, initVars, init_prompt_list "probe1", none, 10⟩

/-- The same session with CMS profile `p1`. -/
def sessCmsP1 : Session :=
  ⟨researchSub, initVars, init_prompt_list "probe1", some "p1", 10⟩

/-- Fresh execution states over the two sessions, with no channel input. -/
def st0 : RunState :=
  ⟨sessDefault, [], [], [], 0⟩

/-- Fresh execution state in CMS-profile mode. -/
def stCms0 : RunState :=
  ⟨sessCmsP1, [], [], [], 0⟩

/-- A channel chunk whose decoded text matches the confirmation prompt. -/
def chunkConfirm : List Nat :=
  strBytes "configuration mode anyway: "

/-- A channel chunk whose decoded text matches the device prompt. -/
def chunkPrompt : List Nat :=
  strBytes "x\nprobe1 # "

/-- The receive-cycle result of reading `chunkPrompt` alone. -/
def resPrompt : PCRRes :=
  ⟨some ("x\nprobe1 # ", none, strBytes "x\nprobe1 # "), sessDefault, [], [], []⟩

/-- The command-cycle result of sending the half-substituted line of the
C2 witness over an empty channel. -/
def resC2 : PCRRes :=
  ⟨none, sessDefault, [], ["fetch <URL> to <VMNAME>\n"],
   [LogEvent.info "Sent command: fetch <URL> to <VMNAME>"]⟩

/-- The timed-out receive cycle of the C10 witness: no channel data is
left after the confirmation chunk, and the nested cycle started by the
automatic reply runs on the session whose counter has already advanced
to 20. -/
def resEmpty20 : PCRRes :=
  ⟨none, { sessCmsP1 with cmsCmdCount := 20 }, [], [], []⟩

theorem strMk_data (s : String) : String.mk s.data = s := by
  cases s; rfl

theorem mkAtLine_data (name action : String) :
    (mkAtLine name action).data =
      '@' :: (name.data ++ ' ' :: (action.data ++ ['\n'])) := by
  simp [mkAtLine, String.data_append]

theorem takeWhile_append_all {p : Char → Bool} (l : List Char) (b : Char) (r : List Char)
    (h : l.all p = true) (hb : p b = false) :
    (l ++ b :: r).takeWhile p = l := by
  induction l with
  | nil => simp [List.takeWhile, hb]
  | cons a t ih =>
    simp only [List.all_cons, Bool.and_eq_true] at h
    simp [List.takeWhile, h.1, ih h.2]

theorem dropWhile_append_all {p : Char → Bool} (l : List Char) (b : Char) (r : List Char)
    (h : l.all p = true) (hb : p b = false) :
    (l ++ b :: r).dropWhile p = b :: r := by
  induction l with
  | nil => simp [List.dropWhile, hb]
  | cons a t ih =>
    simp only [List.all_cons, Bool.and_eq_true] at h
    simp [List.dropWhile, h.1, ih h.2]

theorem atLineParts_mk (name action : String)
    (h1 : name.data ≠ []) (h2 : name.data.all isWordChar = true)
    (h3 : action.data.all (fun c => c != '\n') = true) :
    atLineParts (mkAtLine name action) = some (name, action) := by
  have hsp : isWordChar ' ' = false := by decide
  have hnl : (('\n' : Char) != '\n') = false := by decide
  have htw := takeWhile_append_all name.data ' ' (action.data ++ ['\n']) h2 hsp
  have hdw := dropWhile_append_all name.data ' ' (action.data ++ ['\n']) h2 hsp
  have htw2 : (action.data ++ '\n' :: []).takeWhile (fun c => c != '\n') = action.data :=
    takeWhile_append_all action.data '\n' [] h3 hnl
  have hdw2 : (action.data ++ '\n' :: []).dropWhile (fun c => c != '\n') = ['\n'] :=
    dropWhile_append_all action.data '\n' [] h3 hnl
  unfold atLineParts
  rw [mkAtLine_data]
  cases hn : name.data with
  | nil => exact absurd hn h1
  | cons a t =>
    rw [hn] at htw hdw
    simp only [htw, hdw]
    have : isPyWs ' ' = true := by decide
    simp only [this, if_true]
    simp only [htw2, hdw2]
    rw [← hn, strMk_data, strMk_data]

/-- C3: the claim says prompt matching over the accumulated buffer never
raises a decode error when a chunk boundary splits a multi-byte
character.  The source decodes the whole accumulated buffer with strict
UTF-8 on every chunk and catches only `socket.timeout`, so a first chunk
ending in the lead byte 0xC3 of a two-byte character raises an uncaught
`UnicodeDecodeError` and the cycle crashes, even though the concatenation
of the two chunks decodes cleanly. -/
theorem c3_decode_crash :
    parse_command_response sessDefault
        [[99, 97, 102, 195], [169, 32, 112, 114, 111, 98, 101, 49, 32, 35, 32]] =
      .error ()
    ∧ (utf8Decode ([99, 97, 102, 195] ++ [169, 32, 112, 114, 111, 98, 101, 49, 32, 35, 32])).isSome
        = true
    ∧ utf8Decode [99, 97, 102, 195] = none := by
  refine ⟨rfl, rfl, rfl⟩

theorem mkAtLine_not_comment (name action : String) :
    isCommentLine (mkAtLine name action) = false := by
  show listIsPre "#".data (mkAtLine name action).data = false
  rw [mkAtLine_data]
  rfl

theorem mkAtLine_not_blank (name action : String) :
    isBlankLine (mkAtLine name action) = false := by
  unfold isBlankLine
  rw [mkAtLine_data]
  rfl

theorem mkAtLine_is_macro_exec (name action : String) :
    isMacroExecLine (mkAtLine name action) = true := by
  show listIsPre "@".data (mkAtLine name action).data = true
  rw [mkAtLine_data]
  simp [listIsPre]

/-- C9 counterexample: the line of three spaces and a newline is
whitespace-only, yet the execution pass sends it as a command, because
the blank-line filter `^\r?\n$` only matches a bare line terminator. -/
theorem c9_counterexample :
    specWhitespaceOnly "   \n" = true
    ∧ parse_file_exec st0 ["   \n"] =
        RunRes.finished ⟨sessDefault, [], ["   \n"], [LogEvent.info "Sent command: "], 0⟩ :=
  ⟨rfl, rfl⟩

/-- C9 as amended: a line beginning with a hash, and a line that is
exactly a bare terminator (one of the four forms the blank-line regex
accepts), are skipped by both passes and produce zero sent commands;
other whitespace-only lines are not covered by the filters. -/
theorem c9_skips (st : RunState) (sess : Session) (line : String) (ls : List String)
    (h : isCommentLine line = true ∨ isBlankLine line = true) :
    parse_file_exec st (line :: ls) = parse_file_exec st ls
    ∧ parse_file_macros sess (line :: ls) = parse_file_macros sess ls := by
  rcases h with h | h
  · constructor <;> simp [parse_file_exec, parse_file_macros, h]
  · cases hc : isCommentLine line <;>
      constructor <;> simp [parse_file_exec, parse_file_macros, h, hc]

/-- C9 witness: a comment line is skipped by both passes. -/
theorem c9_witness :
    parse_file_exec st0 ["# note\n"] = parse_file_exec st0 []
    ∧ parse_file_macros sessDefault ["# note\n"] = parse_file_macros sessDefault [] :=
  c9_skips st0 sessDefault "# note\n" [] (Or.inl rfl)

/-- C6 counterexample: a macro line with the unrecognized name `foo` in
execution mode produces no log event at all (in particular no error) and
no effect; `exec_macro` falls through all its checks and returns. -/
theorem c6_counterexample :
    exec_macro_line none "@foo bar\n" = MacroOutcome.done [] 0
    ∧ reMatchName "foo" "exit" = false
    ∧ reMatchName "foo" "sleep" = false :=
  ⟨rfl, rfl, rfl⟩

/-- C6 as amended: a macro line whose name matches neither the exit nor
the sleep check is skipped silently in execution mode — no event is
logged, nothing is slept or sent — and the run continues with the next
line unchanged. -/
theorem c6_unknown_macro_silent (name action : String) (cms : Option String)
    (st : RunState) (ls : List String)
    (h1 : name.data ≠ []) (h2 : name.data.all isWordChar = true)
    (h3 : action.data.all (fun c => c != '\n') = true)
    (hx : reMatchName name "exit" = false) (hs : reMatchName name "sleep" = false) :
    exec_macro_line cms (mkAtLine name action) = MacroOutcome.done [] 0
    ∧ parse_file_exec st (mkAtLine name action :: ls) = parse_file_exec st ls := by
  have hp := atLineParts_mk name action h1 h2 h3
  have key : ∀ c : Option String, exec_macro_line c (mkAtLine name action)
      = MacroOutcome.done [] 0 := by
    intro c
    unfold exec_macro_line
    rw [hp]
    cases c <;> simp [hx, hs]
  refine ⟨key cms, ?_⟩
  simp only [parse_file_exec, mkAtLine_not_comment, mkAtLine_not_blank,
    mkAtLine_is_macro_exec, Bool.false_eq_true, if_false, if_true, key]
  simp

/-- C6 witness: the unknown macro `@foo bar` is skipped silently and the
run proceeds with the following line. -/
theorem c6_witness :
    exec_macro_line none (mkAtLine "foo" "bar") = MacroOutcome.done [] 0
    ∧ parse_file_exec st0 (mkAtLine "foo" "bar" :: ["x\n"]) = parse_file_exec st0 ["x\n"] :=
  c6_unknown_macro_silent "foo" "bar" none st0 ["x\n"]
    (by decide) (by decide) (by decide) rfl rfl

/-- C2 counterexample: with the table of `__init__` (URL undefined,
VMNAME defined), a line holding both placeholders reports the missing
URL at info level but leaves the line completely unchanged: the `break`
aborts the loop before the defined VMNAME placeholder — still present in
the line — is ever substituted. -/
theorem c2_counterexample :
    substituteVars initVars "fetch <URL> to <VMNAME>\n" =
      ("fetch <URL> to <VMNAME>\n", [LogEvent.info (missingVarMsg "URL")])
    ∧ List.lookup "VMNAME" initVars = some (some "default-vm")
    ∧ containsStr "fetch <URL> to <VMNAME>\n" "<VMNAME>" = true :=
  ⟨rfl, rfl, rfl⟩

/-- C2 as amended: when the first variable of the table whose placeholder
occurs in the line has no defined value, the substitution loop logs the
info event and stops — the line is left as accumulated so far and the
variables after it in iteration order are never tried — but the line is
still sent and the run continues with the next line. -/
theorem c2_missing_var (x : String) (vars2 : List (String × Option String)) (line : String)
    (st : RunState) (ls : List String) (r : PCRRes)
    (hx : containsStr line ("<" ++ x ++ ">") = true)
    (hv : st.sess.vars = (x, none) :: vars2)
    (hc : isCommentLine line = false) (hb : isBlankLine line = false)
    (hm : isMacroExecLine line = false)
    (hsend : send_command st.sess line st.chunks = .ok r) :
    substituteVars ((x, none) :: vars2) line = (line, [LogEvent.info (missingVarMsg x)])
    ∧ parse_file_exec st (line :: ls) =
        parse_file_exec ⟨r.sess, r.rest, st.sent ++ r.sent,
          st.log ++ [LogEvent.info (missingVarMsg x)] ++ r.log, st.slept⟩ ls := by
  have hsub : substituteVars ((x, none) :: vars2) line
      = (line, [LogEvent.info (missingVarMsg x)]) := by
    simp [substituteVars, hx]
  refine ⟨hsub, ?_⟩
  simp only [parse_file_exec, hc, hb, hm, Bool.false_eq_true, if_false, hv, hsub, hsend]

/-- C2 witness: the missing URL aborts substitution, the line is sent
verbatim with the defined VMNAME placeholder still literal, and the run
continues. -/
theorem c2_witness :
    substituteVars (("URL", none) :: [("VMNAME", some "default-vm"), ("IMAGE", none)])
        "fetch <URL> to <VMNAME>\n" =
      ("fetch <URL> to <VMNAME>\n", [LogEvent.info (missingVarMsg "URL")])
    ∧ parse_file_exec st0 ["fetch <URL> to <VMNAME>\n"] =
        parse_file_exec ⟨resC2.sess, resC2.rest, st0.sent ++ resC2.sent,
          st0.log ++ [LogEvent.info (missingVarMsg "URL")] ++ resC2.log, st0.slept⟩ [] :=
  c2_missing_var "URL" [("VMNAME", some "default-vm"), ("IMAGE", none)]
    "fetch <URL> to <VMNAME>\n" st0 [] resC2 rfl rfl rfl rfl rfl rfl

/-- C4 counterexample: in CMS-profile mode the line `poco time` does not
begin with any allow-listed prefix, so by the claim it should be
rewrapped; but the `co\st` alternative of the source regex is unanchored
and matches in the middle of the word sequence, so the line is sent
through unwrapped and consumes no command-sequence number. -/
theorem c4_counterexample :
    sessCmsP1.cmsProfile = some "p1"
    ∧ beginsAllowListed "poco time\n" = false
    ∧ send_command sessCmsP1 "poco time\n" [] =
        .ok ⟨none, sessCmsP1, [], ["poco time\n"],
             [LogEvent.info "Sent command: poco time"]⟩ :=
  ⟨rfl, rfl, rfl⟩

/-- C4 as amended: in CMS-profile mode a line matching the login regex
(beginning with `en`, or containing `co` followed by a whitespace and
`t` anywhere) passes through unwrapped with the counter untouched; any
other line is rewrapped as a profile-command directive and advances the
counter by 10; starting from the initial counter of 10, two ordinary
lines are emitted with sequence numbers 10 and 20. -/
theorem c4_cms_wrap (sess : Session) (prof line1 line2 : String)
    (h : sess.cmsProfile = some prof)
    (h1 : isLoginCmd line1 = true) (h2 : isLoginCmd line2 = false) :
    sendWrap sess line1 = (line1, sess)
    ∧ sendWrap sess line2 =
        (cmcWrapStr prof sess.cmsCmdCount line2,
         { sess with cmsCmdCount := sess.cmsCmdCount + 10 })
    ∧ parse_file_exec stCms0 ["set a b\n", "set c d\n"] =
        RunRes.finished ⟨{ sessCmsP1 with cmsCmdCount := 30 }, [],
          [cmcWrapStr "p1" 10 "set a b\n", cmcWrapStr "p1" 20 "set c d\n"],
          [LogEvent.info "Sent command: cmc profile p1 command 10 \"set a b\"",
           LogEvent.info "Sent command: cmc profile p1 command 20 \"set c d\""], 0⟩ := by
  refine ⟨?_, ?_, ?_⟩
  · simp [sendWrap, h, h1]
  · simp [sendWrap, h, h2]
  · rfl

/-- C4 witness: `enable` passes through unwrapped, `set x` is wrapped at
the current counter, and the two-line profile scenario emits sequence
numbers 10 and 20. -/
theorem c4_witness :
    sendWrap sessCmsP1 "enable\n" = ("enable\n", sessCmsP1)
    ∧ sendWrap sessCmsP1 "set x\n" =
        (cmcWrapStr "p1" sessCmsP1.cmsCmdCount "set x\n",
         { sessCmsP1 with cmsCmdCount := sessCmsP1.cmsCmdCount + 10 })
    ∧ parse_file_exec stCms0 ["set a b\n", "set c d\n"] =
        RunRes.finished ⟨{ sessCmsP1 with cmsCmdCount := 30 }, [],
          [cmcWrapStr "p1" 10 "set a b\n", cmcWrapStr "p1" 20 "set c d\n"],
          [LogEvent.info "Sent command: cmc profile p1 command 10 \"set a b\"",
           LogEvent.info "Sent command: cmc profile p1 command 20 \"set c d\""], 0⟩ :=
  c4_cms_wrap sessCmsP1 "p1" "enable\n" "set x\n" rfl rfl rfl

/-- C7 counterexample: a script consisting of the exit macro opens the
channel (the discovery pass succeeds and `open_conn` runs) and then
terminates through `exit()`; `SystemExit` propagates past the
`close_conn` call of `main`, so the run ends with the channel open. -/
theorem c7_counterexample :
    main_run sessDefault ["@exit\n"] [] = ⟨true, false, [], true, false⟩
    ∧ (main_run sessDefault ["@exit\n"] []).opened = true
    ∧ (main_run sessDefault ["@exit\n"] []).closed = false :=
  ⟨rfl, rfl, rfl⟩

/-- C7 as amended: the channel is closed exactly on the normal-completion
path — when the run opened the channel and the execution pass neither
terminated through the exit macro nor crashed; on the exit and error
paths the run ends without closing the channel. -/
theorem c7_close_iff_normal (sess : Session) (lines : List String)
    (chunks : List (List Nat)) :
    (main_run sess lines chunks).closed = true ↔
      ((main_run sess lines chunks).opened = true
        ∧ (main_run sess lines chunks).exitedEarly = false
        ∧ (main_run sess lines chunks).crashed = false) := by
  unfold main_run
  cases h1 : parse_file_macros sess lines with
  | error e => simp [h1]
  | ok sess1 =>
    cases h2 : parse_command_response sess1 chunks with
    | error e => simp [h1, h2]
    | ok r0 =>
      cases h3 : parse_file_exec ⟨r0.sess, r0.rest, r0.sent, r0.log, 0⟩ lines <;>
        simp [h1, h2, h3]

theorem parse_file_exec_append (pre : List String) :
    ∀ (st : RunState) (rest : List String),
      parse_file_exec st (pre ++ rest) =
        match parse_file_exec st pre with
        | .finished st2 => parse_file_exec st2 rest
        | r => r := by
  induction pre with
  | nil => intro st rest; rfl
  | cons l t ih =>
    intro st rest
    cases hc : isCommentLine l with
    | true => simp [parse_file_exec, hc, ih]
    | false =>
      cases hb : isBlankLine l with
      | true => simp [parse_file_exec, hc, hb, ih]
      | false =>
        cases hm : isMacroExecLine l with
        | false =>
          cases hs : send_command st.sess (substituteVars st.sess.vars l).1 st.chunks with
          | error e => simp [parse_file_exec, hc, hb, hm, hs]
          | ok r => simp [parse_file_exec, hc, hb, hm, hs, ih]
        | true =>
          cases hm2 : exec_macro_line st.sess.cmsProfile l with
          | exited lg => simp [parse_file_exec, hc, hb, hm, hm2]
          | crashed lg => simp [parse_file_exec, hc, hb, hm, hm2]
          | done lg d => simp [parse_file_exec, hc, hb, hm, hm2, ih]

/-- C5: once the execution pass has processed a leading segment of the
script and reached the exit-macro line, the whole pass terminates
through `exit()` with only that segment executed; the result does not
depend on the lines after the exit macro, so none of them is sent or
macro-processed, and the session state — including an active CMS
profile — plays no role in the decision. -/
theorem c5_exit_terminates (st : RunState) (pre post : List String) (st2 : RunState)
    (h : parse_file_exec st pre = RunRes.finished st2) :
    parse_file_exec st (pre ++ "@exit\n" :: post) =
      RunRes.exited { st2 with log := st2.log ++ [exitMsg] } := by
  rw [parse_file_exec_append pre st ("@exit\n" :: post), h]
  rfl

/-- C5 witness: in CMS-profile mode, an exit macro at the head of the
script terminates the pass at once; the pending command line after it
produces nothing. -/
theorem c5_witness :
    parse_file_exec stCms0 ([] ++ "@exit\n" :: ["set a b\n"]) =
      RunRes.exited { stCms0 with log := stCms0.log ++ [exitMsg] } :=
  c5_exit_terminates stCms0 [] ["set a b\n"] stCms0 rfl

/-- C8: the sleep macro with a nonnegative integer argument sleeps for
exactly that many seconds in execution mode, delaying the pass before
the next line, and is a complete no-op — zero delay, no log — when a CMS
profile is active. -/
theorem c8_sleep (s : String) (k : Int) (p : String) (st stc : RunState)
    (ls lsc : List String)
    (hn : s.data.all (fun c => c != '\n') = true)
    (hk : pyInt s = some k) (h0 : 0 ≤ k)
    (hcms : st.sess.cmsProfile = none) (hcms2 : stc.sess.cmsProfile = some p) :
    exec_macro_line none (mkAtLine "sleep" s) = MacroOutcome.done [sleepMsg s] k
    ∧ exec_macro_line (some p) (mkAtLine "sleep" s) = MacroOutcome.done [] 0
    ∧ parse_file_exec st (mkAtLine "sleep" s :: ls) =
        parse_file_exec { st with log := st.log ++ [sleepMsg s], slept := st.slept + k } ls
    ∧ parse_file_exec stc (mkAtLine "sleep" s :: lsc) = parse_file_exec stc lsc := by
  have hp := atLineParts_mk "sleep" s (by decide) (by decide) hn
  have hnoneg : ¬(k < 0) := by omega
  have key1 : exec_macro_line none (mkAtLine "sleep" s)
      = MacroOutcome.done [sleepMsg s] k := by
    unfold exec_macro_line
    rw [hp]
    simp [reMatchName, listIsPre, hk, hnoneg]
  have key2 : exec_macro_line (some p) (mkAtLine "sleep" s)
      = MacroOutcome.done [] 0 := by
    unfold exec_macro_line
    rw [hp]
    simp [reMatchName, listIsPre]
  refine ⟨key1, key2, ?_, ?_⟩
  · simp only [parse_file_exec, mkAtLine_not_comment, mkAtLine_not_blank,
      mkAtLine_is_macro_exec, Bool.false_eq_true, if_false, if_true, hcms, key1]
  · simp only [parse_file_exec, mkAtLine_not_comment, mkAtLine_not_blank,
      mkAtLine_is_macro_exec, Bool.false_eq_true, if_false, if_true, hcms2, key2]
    simp

/-- C8 witness: `@sleep 3` sleeps three seconds in execution mode and
zero seconds in CMS-profile mode. -/
theorem c8_witness :
    exec_macro_line none (mkAtLine "sleep" "3") = MacroOutcome.done [sleepMsg "3"] 3
    ∧ exec_macro_line (some "p1") (mkAtLine "sleep" "3") = MacroOutcome.done [] 0
    ∧ parse_file_exec st0 (mkAtLine "sleep" "3" :: []) =
        parse_file_exec { st0 with log := st0.log ++ [sleepMsg "3"], slept := st0.slept + 3 } []
    ∧ parse_file_exec stCms0 (mkAtLine "sleep" "3" :: []) = parse_file_exec stCms0 [] :=
  c8_sleep "3" 3 "p1" st0 stCms0 [] []
    (by decide) rfl (by decide) rfl rfl

theorem pcr_result_prompt (chunks : List (List Nat)) :
    ∀ (sess : Session) (resp : List Nat) (r : PCRRes) (t : String)
      (e : Option String) (raw : List Nat),
      parse_command_response_aux sess chunks resp = .ok r →
      r.result = some (t, e, raw) →
      sess.prompt.any (fun p => sess.research p t) = true := by
  induction chunks with
  | nil =>
    intro sess resp r t e raw h hr
    simp only [parse_command_response_aux] at h
    cases h
    simp at hr
  | cons c rest ih =>
    intro sess resp r t e raw h hr
    rw [parse_command_response_aux] at h
    split at h
    · cases h
    · split at h
      · split at h
        · cases h
        · cases h
          simp at hr
      · split at h
        · rename_i hpm
          cases h
          simp only [Option.some.injEq, Prod.mk.injEq] at hr
          rw [← hr.1]
          exact hpm
        · exact ih sess (resp ++ c) r t e raw h hr

/-- C1: when the text decoded from the first accumulation matches the
confirmation pattern, the receive cycle sends exactly one automatic
`YES` reply for that occurrence (here in live mode, so the reply is the
literal line), hands the remaining chunks to the nested receive cycle
started by the reply, and returns `None` itself — the confirmation text
is never the final result handed to the caller; and whenever a receive
cycle does return a final text, some true prompt pattern matches it. -/
theorem c1_confirmation (sess : Session) (c : List Nat) (rest : List (List Nat))
    (text : String) (r2 : PCRRes) (t : String) (e : Option String) (raw : List Nat)
    (hcms : sess.cmsProfile = none)
    (hdec : utf8Decode c = some text)
    (hcmc : matchesCmcPrompt text = true)
    (hr2 : parse_command_response_aux sess rest [] = .ok r2)
    (hres : r2.result = some (t, e, raw)) :
    parse_command_response sess (c :: rest) =
      .ok ⟨none, r2.sess, r2.rest, "YES\n" :: r2.sent,
           LogEvent.info "Sent command: YES" :: r2.log⟩
    ∧ sess.prompt.any (fun p => sess.research p t) = true := by
  have hw : sendWrap sess "YES\n" = ("YES\n", sess) := by
    simp [sendWrap, hcms]
  constructor
  · show parse_command_response_aux sess (c :: rest) [] = _
    simp only [parse_command_response_aux, List.nil_append, hdec, hcmc, if_true, hw, hr2]
    rfl
  · exact pcr_result_prompt rest sess [] r2 t e raw hr2 hres

/-- C1 witness: a confirmation chunk followed by a prompt chunk triggers
one literal `YES` reply, the cycle result is `None`, and the nested
cycle resolves on the device prompt. -/
theorem c1_witness :
    parse_command_response sessDefault (chunkConfirm :: [chunkPrompt]) =
      .ok ⟨none, resPrompt.sess, resPrompt.rest, "YES\n" :: resPrompt.sent,
           LogEvent.info "Sent command: YES" :: resPrompt.log⟩
    ∧ sessDefault.prompt.any (fun p => sessDefault.research p "x\nprobe1 # ") = true :=
  c1_confirmation sessDefault chunkConfirm [chunkPrompt] "configuration mode anyway: "
    resPrompt "x\nprobe1 # " none (strBytes "x\nprobe1 # ") rfl rfl rfl rfl rfl

/-- C10: in CMS-profile mode the automatic confirmation reply goes
through the same `send_command` path as script lines, so it is rewrapped
as a profile-command directive carrying the current command-sequence
number, and the nested receive cycle — and with it every later wrapped
line — continues from the counter advanced by 10. -/
theorem c10_cms_yes (sess : Session) (prof : String) (c : List Nat)
    (rest : List (List Nat)) (text : String) (r2 : PCRRes)
    (hcms : sess.cmsProfile = some prof)
    (hdec : utf8Decode c = some text)
    (hcmc : matchesCmcPrompt text = true)
    (hr2 : parse_command_response_aux { sess with cmsCmdCount := sess.cmsCmdCount + 10 }
             rest [] = .ok r2) :
    parse_command_response sess (c :: rest) =
      .ok ⟨none, r2.sess, r2.rest,
           cmcWrapStr prof sess.cmsCmdCount "YES\n" :: r2.sent,
           LogEvent.info ("Sent command: "
             ++ pyRstrip (cmcWrapStr prof sess.cmsCmdCount "YES\n")) :: r2.log⟩ := by
  have hlogin : isLoginCmd "YES\n" = false := rfl
  have hw : sendWrap sess "YES\n" =
      (cmcWrapStr prof sess.cmsCmdCount "YES\n",
       { sess with cmsCmdCount := sess.cmsCmdCount + 10 }) := by
    simp [sendWrap, hcms, hlogin]
  show parse_command_response_aux sess (c :: rest) [] = _
  simp only [parse_command_response_aux, List.nil_append, hdec, hcmc, if_true, hw, hr2]

/-- C10 witness: with profile `p1` and counter 10, the automatic reply is
sent as `cmc profile p1 command 10 "YES"` and the nested cycle runs with
the counter at 20. -/
theorem c10_witness :
    parse_command_response sessCmsP1 [chunkConfirm] =
      .ok ⟨none, resEmpty20.sess, resEmpty20.rest,
           cmcWrapStr "p1" sessCmsP1.cmsCmdCount "YES\n" :: resEmpty20.sent,
           LogEvent.info ("Sent command: "
             ++ pyRstrip (cmcWrapStr "p1" sessCmsP1.cmsCmdCount "YES\n")) :: resEmpty20.log⟩ :=
  c10_cms_yes sessCmsP1 "p1" chunkConfirm [] "configuration mode anyway: "
    resEmpty20 rfl rfl rfl rfl
